import Mathlib

/-!
Shallow embedding of `logrotate/rotate.go` (package logrotate of
calmu/hgotool): a rotating file writer that switches files on wall-clock
time boundaries and on an accumulated-size threshold.

Modelling conventions:
* `time.Time` is modelled by `GoTime`, a normalized proleptic-Gregorian
  civil time in a single fixed location (year, month, day, hour, minute,
  second).  `time.Date`'s field normalization is implemented by `timeDate`
  via the standard civil-from-days / days-from-civil conversion, and
  `Time.After` by comparing absolute second counts.  Sub-second precision
  and locations are not modelled; no claim depends on them.
* The operating system is modelled by an `Env` value supplied to each
  call: the current instant (`time.Now()` is read once per call), whether
  `os.MkdirAll` and `os.OpenFile` succeed, the size `Stat` reports for the
  opened file (`none` = stat error), a fresh descriptor identity for the
  opened handle, what the underlying `(*os.File).Write` reports, and the
  errors `Close`/`Sync` report.
* An open `*os.File` is a `FileHandle` (its stored name, an identity, and
  whether it has been closed); `File.Name()` keeps returning the stored
  name after `Close`, as in Go.
* Go methods mutate their receiver, so each operation returns its result
  together with the updated `RotateWriter` state.
* The byte slice passed to `Write` is only ever used through `len(p)` and
  the count the OS reports, so it is modelled by its length `plen`.
* The `mu sync.Mutex` field serializes the public methods; a lock is not
  representable in this sequential embedding and is omitted from the state.
-/

deriving instance DecidableEq for Except

/-- A normalized civil time (Go `time.Time` in one fixed location). -/
structure GoTime where
  year : Int
  month : Int
  day : Int
  hour : Int
  minute : Int
  second : Int
  deriving Repr, DecidableEq

/-- Days since 1970-01-01 of the civil date `(y, m, d)`; `m` must be in
`[1, 12]`, while `d` may lie outside the month and acts as an offset
(civil-from-days / days-from-civil standard algorithm). -/
def daysFromCivil (y m d : Int) : Int :=
  let y := if m ≤ 2 then y - 1 else y
  let era := Int.ediv y 400
  let yoe := y - era * 400
  let mp := Int.emod (m + 9) 12
  let doy := Int.ediv (153 * mp + 2) 5 + d - 1
  let doe := yoe * 365 + Int.ediv yoe 4 - Int.ediv yoe 100 + doy
  era * 146097 + doe - 719468

/-- Inverse of `daysFromCivil`: the civil date `(y, m, d)` of a day count. -/
def civilFromDays (z0 : Int) : Int × Int × Int :=
  let z := z0 + 719468
  let era := Int.ediv z 146097
  let doe := z - era * 146097
  let yoe := Int.ediv (doe - Int.ediv doe 1460 + Int.ediv doe 36524 - Int.ediv doe 146096) 365
  let y := yoe + era * 400
  let doy := doe - (365 * yoe + Int.ediv yoe 4 - Int.ediv yoe 100)
  let mp := Int.ediv (5 * doy + 2) 153
  let d := doy - Int.ediv (153 * mp + 2) 5 + 1
  let m := mp + (if mp < 10 then 3 else (-9 : Int))
  (y + (if m ≤ 2 then 1 else 0), m, d)

/-- Go `time.Date(year, month, day, hour, minute, second, 0, loc)`:
normalizes every field that lies outside its usual range. -/
def timeDate (year month day hour minute second : Int) : GoTime :=
  let m0 := month - 1
  let year := year + Int.ediv m0 12
  let month := Int.emod m0 12 + 1
  let minute := minute + Int.ediv second 60
  let second := Int.emod second 60
  let hour := hour + Int.ediv minute 60
  let minute := Int.emod minute 60
  let day := day + Int.ediv hour 24
  let hour := Int.emod hour 24
  let c := civilFromDays (daysFromCivil year month day)
  { year := c.1, month := c.2.1, day := c.2.2,
    hour := hour, minute := minute, second := second }

/-- Seconds since the epoch of a normalized civil time. -/
def toAbsSeconds (t : GoTime) : Int :=
  daysFromCivil t.year t.month t.day * 86400 + t.hour * 3600 + t.minute * 60 + t.second

/-- Go `t.After(u)`: strictly later. -/
def goAfter (t u : GoTime) : Bool := toAbsSeconds u < toAbsSeconds t

/-- Two-digit zero-padded decimal, as Go layout tokens `01`, `02`, `15`, `04`. -/
def pad2 (n : Int) : String := if n < 10 then "0" ++ toString n else toString n

/-- Four-digit zero-padded decimal, as Go layout token `2006`. -/
def pad4 (n : Int) : String :=
  if n < 10 then "000" ++ toString n
  else if n < 100 then "00" ++ toString n
  else if n < 1000 then "0" ++ toString n
  else toString n

/-- Go `now.Format("2006-01-02")`. -/
def fmtDaily (t : GoTime) : String :=
  pad4 t.year ++ "-" ++ pad2 t.month ++ "-" ++ pad2 t.day

/-- Go `now.Format("2006-01-02_15")`. -/
def fmtHourly (t : GoTime) : String := fmtDaily t ++ "_" ++ pad2 t.hour

/-- Go `now.Format("2006-01-02_15_04")`. -/
def fmtMinutely (t : GoTime) : String := fmtHourly t ++ "_" ++ pad2 t.minute

/-- Helper for `goExt`: scan the reversed character list for the final dot,
stopping at a path separator. -/
def goExtAux : List Char → List Char → String
  | [], _ => ""
  | c :: rest, acc =>
    if c = '/' then ""
    else if c = '.' then String.mk (c :: acc)
    else goExtAux rest (c :: acc)

/-- Go `filepath.Ext`: the suffix from the final dot of the final
path element (dot included), or `""` if there is none. -/
def goExt (path : String) : String := goExtAux path.data.reverse []

/-- Go `strings.TrimSuffix`: drop `suf` from the end of `s` when it is
there (`strings.HasSuffix` guard), over characters. -/
def goTrimSuffix (s suf : String) : String :=
  if suf.data.isSuffixOf s.data then String.mk (s.data.take (s.data.length - suf.data.length))
  else s

/-- `RotateConfig` of rotate.go.  `maxSize` is in MB (source comment); the
check converts it to bytes.  `maxBackups`, `maxAge` and `compress` are
carried but never read by the writer. -/
structure RotateConfig where
  timeRotation : String
  maxSize : Int
  maxBackups : Int
  maxAge : Int
  compress : Bool
  filename : String
  deriving Repr, DecidableEq

/-- An `*os.File`: its stored name, an identity distinguishing distinct
opens of the same path, and whether `Close` has been called on it. -/
structure FileHandle where
  name : String
  fd : Nat
  isOpen : Bool
  deriving Repr, DecidableEq

/-- `RotateWriter` of rotate.go (the mutex is omitted, see the header). -/
structure RotateWriter where
  config : RotateConfig
  file : Option FileHandle
  currentSize : Int
  lastRotateTime : GoTime
  filePrefix : String
  fileExt : String
  deriving Repr, DecidableEq

/-- The operating-system behaviour visible to one call, see the header. -/
structure Env where
  now : GoTime
  mkdirOk : Bool
  openOk : Bool
  statSize : Option Int
  fd : Nat
  appendResult : Nat × Option String
  closeErr : Option String
  syncErr : Option String
  deriving Repr, DecidableEq

/-- `getCurrentFilePath` of rotate.go: the path for the instant `now`.
Any `TimeRotation` other than `"hourly"` and `"minutely"` (including
`"none"` and `""`) falls to the `default` case, which formats daily. -/
def getCurrentFilePath (now : GoTime) (rw : RotateWriter) : String :=
  let timePart :=
    if rw.config.timeRotation = "hourly" then fmtHourly now
    else if rw.config.timeRotation = "minutely" then fmtMinutely now
    else fmtDaily now
  rw.filePrefix ++ "_" ++ timePart ++ rw.fileExt

/-- `getRotationTimeBoundary` of rotate.go: the start of the next
granularity unit after `now` (the `default` case is daily). -/
def getRotationTimeBoundary (now : GoTime) (rw : RotateWriter) : GoTime :=
  if rw.config.timeRotation = "hourly" then
    timeDate now.year now.month now.day (now.hour + 1) 0 0
  else if rw.config.timeRotation = "minutely" then
    timeDate now.year now.month now.day now.hour (now.minute + 1) 0
  else
    timeDate now.year now.month (now.day + 1) 0 0 0

/-- `openNewFile` of rotate.go.  It first closes the current handle if one
is set (the field keeps referencing the closed handle), then computes the
path for the current instant, creates the parent directory, opens the file
in append mode, and seeds `currentSize` from `Stat` (0 on stat error).  On
a mkdir/open error it returns the error with the partially mutated state.
The parent-directory string (`filepath.Dir`) feeds only `os.MkdirAll`,
whose outcome `env.mkdirOk` models, so it is not recomputed here. -/
def openNewFile (env : Env) (rw : RotateWriter) : Option String × RotateWriter :=
  let rw :=
    match rw.file with
    | some f => { rw with file := some { f with isOpen := false } }
    | none => rw
  let currentPath := getCurrentFilePath env.now rw
  if env.mkdirOk = false then (some "mkdir failed", rw)
  else if env.openOk = false then (some "open failed", rw)
  else
    let rw := { rw with file := some { name := currentPath, fd := env.fd, isOpen := true } }
    match env.statSize with
    | none => (none, { rw with currentSize := 0 })
    | some s => (none, { rw with currentSize := s })

/-- `checkRotate` of rotate.go: the rotation decision evaluated before each
write.  Time branch: `now.After(lastRotateTime)` (strict); reopen only when
no file is set or its stored name differs from the path for `now`, and only
then advance `lastRotateTime`; the branch returns in every case, skipping
the size check.  Size branch: reopen when `MaxSize*1024*1024 > 0` and
`currentSize` reached it. -/
def checkRotate (env : Env) (rw : RotateWriter) : Option String × RotateWriter :=
  let now := env.now
  if goAfter now rw.lastRotateTime then
    let currentPath := getCurrentFilePath now rw
    if (match rw.file with | none => true | some f => f.name != currentPath) then
      match openNewFile env rw with
      | (some e, rw') => (some e, rw')
      | (none, rw') => (none, { rw' with lastRotateTime := getRotationTimeBoundary now rw' })
    else (none, rw)
  else
    let maxSizeBytes := rw.config.maxSize * 1024 * 1024
    if maxSizeBytes > 0 ∧ rw.currentSize ≥ maxSizeBytes then
      openNewFile env rw
    else (none, rw)

/-- Go `(*os.File).Write` as the writer sees it: a nil file reports
`ErrInvalid`, a closed one `ErrClosed`, an open one whatever the OS
reports for this call (`env.appendResult`). -/
def fileWrite (env : Env) (file : Option FileHandle) : Nat × Option String :=
  match file with
  | none => (0, some "invalid argument")
  | some f => if f.isOpen then env.appendResult else (0, some "file already closed")

/-- `Write` of rotate.go: run `checkRotate`, abort with `(0, err)` on a
rotation error, otherwise append and advance `currentSize` by `n` only
when the append reported no error. -/
def Write (env : Env) (rw : RotateWriter) (plen : Nat) :
    (Nat × Option String) × RotateWriter :=
  match checkRotate env rw with
  | (some e, rw') => ((0, some e), rw')
  | (none, rw') =>
    let r := fileWrite env rw'.file
    match r.2 with
    | none => ((r.1, none), { rw' with currentSize := rw'.currentSize + (r.1 : Int) })
    | some e => ((r.1, some e), rw')

/-- `Sync` of rotate.go: flush the open file, no-op without one. -/
def Sync (env : Env) (rw : RotateWriter) : Option String × RotateWriter :=
  match rw.file with
  | some _ => (env.syncErr, rw)
  | none => (none, rw)

/-- `Close` of rotate.go: close the handle and clear the field (the field
is cleared even when the close reports an error); nothing to do when no
handle is set. -/
def Close (env : Env) (rw : RotateWriter) : Option String × RotateWriter :=
  match rw.file with
  | some _ => (env.closeErr, { rw with file := none })
  | none => (none, rw)

/-- `Rotate` of rotate.go: unconditionally `openNewFile` (note: it does not
touch `lastRotateTime`). -/
def Rotate (env : Env) (rw : RotateWriter) : Option String × RotateWriter :=
  openNewFile env rw

/-- `GetLogFilePath` of rotate.go: the stored name of the current handle,
or `""` when none is set. -/
def GetLogFilePath (rw : RotateWriter) : String :=
  match rw.file with
  | some f => f.name
  | none => ""

/-- `NewRotateWriter` of rotate.go: split the configured filename into
prefix and extension, open the initial file (construction fails if that
fails), then set the initial boundary.  Go's zero `time.Time` is
year 1, January 1. -/
def NewRotateWriter (env : Env) (config : RotateConfig) : Except String RotateWriter :=
  let ext := goExt config.filename
  let pre := goTrimSuffix config.filename ext
  let rw : RotateWriter :=
    { config := config, file := none, currentSize := 0,
      lastRotateTime := ⟨1, 1, 1, 0, 0, 0⟩, filePrefix := pre, fileExt := ext }
  match openNewFile env rw with
  | (some e, _) => .error e
  | (none, rw') => .ok { rw' with lastRotateTime := getRotationTimeBoundary env.now rw' }

/-! Concrete fixtures: configurations, environments and writer states used
by the scenario theorems below.  `mkEnv` builds an environment in which
mkdir, open, stat, close and sync all succeed. -/

/-- An environment with no injected failure. -/
def mkEnv (now : GoTime) (fd : Nat) (stat : Int) (app : Nat × Option String) : Env :=
  ⟨now, true, true, some stat, fd, app, none, none⟩

/-- Granularity `"none"`, MaxSize 1024 (the literal number of the spec's
size scenario, which the source reads as megabytes). -/
def cfgNone1024 : RotateConfig := ⟨"none", 1024, 3, 7, false, "app.log"⟩

/-- Granularity `"none"`, MaxSize 1 (one megabyte). -/
def cfgNone1 : RotateConfig := ⟨"none", 1, 3, 7, false, "app.log"⟩

/-- Granularity `"none"`, size rotation disabled. -/
def cfgNone0 : RotateConfig := ⟨"none", 0, 3, 7, false, "app.log"⟩

/-- Daily granularity, size rotation disabled. -/
def cfgDaily : RotateConfig := ⟨"daily", 0, 3, 7, false, "app.log"⟩

/-- Hourly granularity, size rotation disabled. -/
def cfgHourly : RotateConfig := ⟨"hourly", 0, 3, 7, false, "app.log"⟩

/-- The writer `NewRotateWriter` builds from `cfgNone1024` at
2024-03-01T12:00:00 with descriptor 10 on an empty file. -/
def rwA : RotateWriter :=
  ⟨cfgNone1024, some ⟨"app_2024-03-01.log", 10, true⟩, 0, ⟨2024, 3, 2, 0, 0, 0⟩, "app", ".log"⟩

def envA0 : Env := mkEnv ⟨2024, 3, 1, 12, 0, 0⟩ 10 0 (0, none)
def envA1 : Env := mkEnv ⟨2024, 3, 1, 12, 0, 1⟩ 11 0 (1024, none)
def envA2 : Env := mkEnv ⟨2024, 3, 1, 12, 0, 2⟩ 12 0 (1, none)

/-- The writer `NewRotateWriter` builds from `cfgNone1` at
2024-03-01T12:00:00 with descriptor 20 on an empty file. -/
def rwB : RotateWriter :=
  ⟨cfgNone1, some ⟨"app_2024-03-01.log", 20, true⟩, 0, ⟨2024, 3, 2, 0, 0, 0⟩, "app", ".log"⟩

def envB0 : Env := mkEnv ⟨2024, 3, 1, 12, 0, 0⟩ 20 0 (0, none)
def envB1 : Env := mkEnv ⟨2024, 3, 1, 12, 0, 1⟩ 21 0 (1048576, none)
def envB2 : Env := mkEnv ⟨2024, 3, 1, 12, 0, 2⟩ 22 1048576 (1, none)

/-- A daily writer on `app_2024-03-01.log` whose boundary is
2024-03-02T00:00:00. -/
def rwC : RotateWriter :=
  ⟨cfgDaily, some ⟨"app_2024-03-01.log", 30, true⟩, 0, ⟨2024, 3, 2, 0, 0, 0⟩, "app", ".log"⟩

/-- An instant exactly at `rwC`'s boundary. -/
def envC2x : Env := mkEnv ⟨2024, 3, 2, 0, 0, 0⟩ 31 0 (0, none)

/-- The writer `NewRotateWriter` builds from `cfgDaily` at
2024-03-01T23:00:00 with descriptor 32 on an empty file. -/
def rwD : RotateWriter :=
  ⟨cfgDaily, some ⟨"app_2024-03-01.log", 32, true⟩, 0, ⟨2024, 3, 2, 0, 0, 0⟩, "app", ".log"⟩

def envD0 : Env := mkEnv ⟨2024, 3, 1, 23, 0, 0⟩ 32 0 (0, none)
def envD1 : Env := mkEnv ⟨2024, 3, 1, 23, 59, 59⟩ 33 0 (5, none)
def envD2 : Env := mkEnv ⟨2024, 3, 2, 0, 0, 1⟩ 34 0 (5, none)

/-- The writer `NewRotateWriter` builds from `cfgNone0` at
2024-03-01T12:00:00 with descriptor 35 on an empty file. -/
def rwC3v : RotateWriter :=
  ⟨cfgNone0, some ⟨"app_2024-03-01.log", 35, true⟩, 0, ⟨2024, 3, 2, 0, 0, 0⟩, "app", ".log"⟩

def envC3v : Env := mkEnv ⟨2024, 3, 1, 12, 0, 0⟩ 35 0 (0, none)

/-- A daily writer holding 7 accumulated bytes, boundary 2024-03-02T00:00:00. -/
def rwE : RotateWriter :=
  ⟨cfgDaily, some ⟨"app_2024-03-01.log", 40, true⟩, 7, ⟨2024, 3, 2, 0, 0, 0⟩, "app", ".log"⟩

/-- Past `rwE`'s boundary, with `os.MkdirAll` failing. -/
def envE1 : Env := ⟨⟨2024, 3, 2, 0, 0, 1⟩, false, true, some 0, 41, (0, none), none, none⟩

/-- One second later, everything succeeding again. -/
def envE2 : Env := mkEnv ⟨2024, 3, 2, 0, 0, 2⟩ 42 0 (5, none)

/-- An hourly writer on the hour-12 file whose boundary is still
2024-03-01T12:00:00 (the state a `Rotate` call leaves behind, since
`Rotate` does not touch the boundary). -/
def rwF : RotateWriter :=
  ⟨cfgHourly, some ⟨"app_2024-03-01_12.log", 50, true⟩, 0, ⟨2024, 3, 1, 12, 0, 0⟩, "app", ".log"⟩

def envF : Env := mkEnv ⟨2024, 3, 1, 12, 45, 0⟩ 51 0 (0, none)

/-- An hourly writer on the hour-11 file, boundary 2024-03-01T12:00:00. -/
def rwG : RotateWriter :=
  ⟨cfgHourly, some ⟨"app_2024-03-01_11.log", 60, true⟩, 5, ⟨2024, 3, 1, 12, 0, 0⟩, "app", ".log"⟩

def envG : Env := mkEnv ⟨2024, 3, 1, 12, 30, 0⟩ 61 0 (0, none)

/-- A daily writer holding 100 accumulated bytes, boundary
2024-03-02T00:00:00. -/
def rwH : RotateWriter :=
  ⟨cfgDaily, some ⟨"app_2024-03-01.log", 80, true⟩, 100, ⟨2024, 3, 2, 0, 0, 0⟩, "app", ".log"⟩

/-- Before `rwH`'s boundary; the underlying append reports 5 bytes written
together with an error. -/
def envH : Env := ⟨⟨2024, 3, 1, 23, 0, 0⟩, true, true, some 0, 81, (5, some "io error"), none, none⟩

/-- Environment of a `Close` call on `rwH`. -/
def envI0 : Env := mkEnv ⟨2024, 3, 2, 0, 0, 0⟩ 89 0 (0, none)

/-- Past `rwH`'s boundary, everything succeeding, append reporting 5. -/
def envI : Env := mkEnv ⟨2024, 3, 2, 0, 0, 1⟩ 90 0 (5, none)

/-! Helper lemmas shared by the claim theorems. -/

/-- `openNewFile` never touches `lastRotateTime`. -/
theorem openNewFile_lastRotateTime (env : Env) (rw : RotateWriter) :
    (openNewFile env rw).2.lastRotateTime = rw.lastRotateTime := by
  cases hf : rw.file <;> cases hm : env.mkdirOk <;> cases ho : env.openOk <;>
    cases hs : env.statSize <;> simp [openNewFile, hf, hm, ho, hs]

/-- `openNewFile` never touches the configuration. -/
theorem openNewFile_config (env : Env) (rw : RotateWriter) :
    (openNewFile env rw).2.config = rw.config := by
  cases hf : rw.file <;> cases hm : env.mkdirOk <;> cases ho : env.openOk <;>
    cases hs : env.statSize <;> simp [openNewFile, hf, hm, ho, hs]

/-- When the boundary has passed and the reopen condition holds, `checkRotate`
is the time branch: it runs `openNewFile` and, on success, advances the
boundary. -/
theorem checkRotate_time_branch (env : Env) (rw : RotateWriter)
    (ht : goAfter env.now rw.lastRotateTime = true)
    (hcond : (match rw.file with
        | none => true
        | some f => f.name != getCurrentFilePath env.now rw) = true) :
    checkRotate env rw =
      (match openNewFile env rw with
       | (some e, rw') => (some e, rw')
       | (none, rw') =>
         (none, { rw' with lastRotateTime := getRotationTimeBoundary env.now rw' })) := by
  simp only [checkRotate, ht, hcond, if_true]

/-! The claim theorems. -/

/-- C1, counterexample: the configured size limit is `MaxSize`, read as
megabytes, not bytes.  With `MaxSize = 1024` and granularity `none`, a writer
that has accumulated 1024 bytes appends one more byte WITHOUT any rotation:
the handle opened at construction (descriptor 10) is still the open file
after both writes and the accumulated count reaches 1025, while the claimed
behaviour demands exactly one reopen before the 1025th byte. -/
theorem size_scenario_1024_counterexample :
    NewRotateWriter envA0 cfgNone1024 = .ok rwA
    ∧ Write envA1 rwA 1024 = ((1024, none), { rwA with currentSize := 1024 })
    ∧ (Write envA2 { rwA with currentSize := 1024 } 1).2.file = rwA.file
    ∧ (Write envA2 { rwA with currentSize := 1024 } 1).2.currentSize = 1025
    ∧ rwA.file = some ⟨"app_2024-03-01.log", 10, true⟩
    ∧ envA2.fd = 12 := by decide

/-- C1 (amended): the size threshold is `MaxSize` megabytes, converted to
`MaxSize*1024*1024` bytes.  Whenever the time check does not fire (the
current instant is not strictly after the boundary), `checkRotate` reopens
exactly when that byte threshold is positive and `currentSize` has reached
it; and with `MaxSize = 1` and granularity `none`, writing 1048576 bytes and
then one more byte triggers exactly one rotation before the 1048577th byte
is appended: the first write leaves the construction-time handle in place,
the second write's resulting handle is the one opened by that write
(descriptor 22), and the final count is the reopened file's on-disk size
1048576 plus the 1 appended byte. -/
theorem size_threshold_megabytes (env : Env) (rw : RotateWriter)
    (h : goAfter env.now rw.lastRotateTime = false) :
    checkRotate env rw =
      (if rw.config.maxSize * 1024 * 1024 > 0 ∧ rw.currentSize ≥ rw.config.maxSize * 1024 * 1024
        then openNewFile env rw else (none, rw))
    ∧ (Write envB1 rwB 1048576).2.file = rwB.file
    ∧ (Write envB2 (Write envB1 rwB 1048576).2 1).2.file = some ⟨"app_2024-03-01.log", 22, true⟩
    ∧ (Write envB2 (Write envB1 rwB 1048576).2 1).2.currentSize = 1048577
    ∧ NewRotateWriter envB0 cfgNone1 = .ok rwB := by
  refine ⟨?_, by decide, by decide, by decide, by decide⟩
  simp [checkRotate, h]

/-- C1, witness: the amended theorem applied at `envH`, `rwH` (an instant
before the boundary). -/
theorem size_threshold_megabytes_witness :
    checkRotate envH rwH =
      (if rwH.config.maxSize * 1024 * 1024 > 0 ∧ rwH.currentSize ≥ rwH.config.maxSize * 1024 * 1024
        then openNewFile envH rwH else (none, rwH))
    ∧ (Write envB1 rwB 1048576).2.file = rwB.file
    ∧ (Write envB2 (Write envB1 rwB 1048576).2 1).2.file = some ⟨"app_2024-03-01.log", 22, true⟩
    ∧ (Write envB2 (Write envB1 rwB 1048576).2 1).2.currentSize = 1048577
    ∧ NewRotateWriter envB0 cfgNone1 = .ok rwB :=
  size_threshold_megabytes envH rwH (by decide)

/-- C2, counterexample: at an instant exactly equal to `nextTimeBoundary`
("at" the boundary), with the path for the instant differing from the open
file's path, `checkRotate` does nothing at all — `time.After` is strict, so
"at or past" is wrong:  no close, no reopen, no reseed, no boundary update. -/
theorem time_rotation_at_boundary_counterexample :
    toAbsSeconds envC2x.now = toAbsSeconds rwC.lastRotateTime
    ∧ Option.map FileHandle.name rwC.file ≠ some (getCurrentFilePath envC2x.now rwC)
    ∧ checkRotate envC2x rwC = (none, rwC) := by decide

/-- C2 (amended): for every write at an instant STRICTLY after
`nextTimeBoundary` whose computed path differs from the open file's path
(directory creation and open succeeding), the writer ends up with the file
at the new path open, `currentSize` reseeded from that file's on-disk
length (0 on stat error), and the boundary recomputed for the current
instant; and for granularity daily, a write at 2024-03-01T23:59:59 and one
at 2024-03-02T00:00:01 land in the files named with 2024-03-01 and
2024-03-02 respectively. -/
theorem time_rotation_strictly_after (env : Env) (rw : RotateWriter)
    (ht : goAfter env.now rw.lastRotateTime = true)
    (hne : Option.map FileHandle.name rw.file ≠ some (getCurrentFilePath env.now rw))
    (hm : env.mkdirOk = true) (ho : env.openOk = true) :
    ((checkRotate env rw).1 = none
      ∧ (checkRotate env rw).2.file = some ⟨getCurrentFilePath env.now rw, env.fd, true⟩
      ∧ (checkRotate env rw).2.currentSize = env.statSize.getD 0
      ∧ (checkRotate env rw).2.lastRotateTime = getRotationTimeBoundary env.now rw)
    ∧ NewRotateWriter envD0 cfgDaily = .ok rwD
    ∧ GetLogFilePath (Write envD1 rwD 5).2 = "app_2024-03-01.log"
    ∧ GetLogFilePath (Write envD2 (Write envD1 rwD 5).2 5).2 = "app_2024-03-02.log" := by
  refine ⟨?_, by decide, by decide, by decide⟩
  cases hf : rw.file with
  | none =>
    cases hs : env.statSize <;>
      simp [checkRotate, ht, hf, openNewFile, hm, ho, hs, getCurrentFilePath,
        getRotationTimeBoundary]
  | some f =>
    have hnef : ¬ (f.name = getCurrentFilePath env.now rw) := by
      rw [hf] at hne; simpa using hne
    simp only [getCurrentFilePath] at hnef
    cases hs : env.statSize <;>
      simp [checkRotate, ht, hf, openNewFile, hm, ho, hs, getCurrentFilePath,
        getRotationTimeBoundary, hnef]

/-- C2, witness: the amended theorem applied at `envD2`, `rwD` (one second
past a daily boundary). -/
theorem time_rotation_strictly_after_witness :
    ((checkRotate envD2 rwD).1 = none
      ∧ (checkRotate envD2 rwD).2.file = some ⟨getCurrentFilePath envD2.now rwD, envD2.fd, true⟩
      ∧ (checkRotate envD2 rwD).2.currentSize = envD2.statSize.getD 0
      ∧ (checkRotate envD2 rwD).2.lastRotateTime = getRotationTimeBoundary envD2.now rwD)
    ∧ NewRotateWriter envD0 cfgDaily = .ok rwD
    ∧ GetLogFilePath (Write envD1 rwD 5).2 = "app_2024-03-01.log"
    ∧ GetLogFilePath (Write envD2 (Write envD1 rwD 5).2 5).2 = "app_2024-03-02.log" :=
  time_rotation_strictly_after envD2 rwD (by decide) (by decide) (by decide) (by decide)

/-- C3, counterexample: with granularity `"none"`, construction opens
`app_2024-03-01.log` — the daily time token is present, not the literal
base path `app.log`. -/
theorem none_granularity_counterexample :
    NewRotateWriter envC3v cfgNone0 = .ok rwC3v
    ∧ GetLogFilePath rwC3v = "app_2024-03-01.log"
    ∧ GetLogFilePath rwC3v ≠ cfgNone0.filename := by decide

/-- C3 (amended): every granularity other than `"hourly"` and `"minutely"`
— `"none"` included — falls to the `default` case of `getCurrentFilePath`
and produces `prefix_YYYY-MM-DD.ext`; the literal base path is never used. -/
theorem default_granularity_formats_daily (now : GoTime) (rw : RotateWriter)
    (h1 : rw.config.timeRotation ≠ "hourly") (h2 : rw.config.timeRotation ≠ "minutely") :
    getCurrentFilePath now rw = rw.filePrefix ++ "_" ++ fmtDaily now ++ rw.fileExt := by
  simp [getCurrentFilePath, h1, h2]

/-- C3, witness: the amended theorem applied at granularity `"none"`. -/
theorem default_granularity_formats_daily_witness :
    getCurrentFilePath ⟨2024, 3, 1, 12, 0, 0⟩ rwC3v
      = rwC3v.filePrefix ++ "_" ++ fmtDaily ⟨2024, 3, 1, 12, 0, 0⟩ ++ rwC3v.fileExt :=
  default_granularity_formats_daily ⟨2024, 3, 1, 12, 0, 0⟩ rwC3v (by decide) (by decide)

/-- C4, counterexample: when directory creation fails during a
write-triggered rotation, the write errors out, but the writer is NOT left
with a nil handle: the field still holds the (now closed) previous handle. -/
theorem rotation_failure_nil_counterexample :
    (Write envE1 rwE 5).1 = (0, some "mkdir failed")
    ∧ (Write envE1 rwE 5).2.file = some ⟨"app_2024-03-01.log", 40, false⟩
    ∧ (Write envE1 rwE 5).2.file ≠ none := by decide

/-- C4 (amended): if creating the parent directory or opening the new file
fails during any write-triggered rotation attempt — the time branch firing
(boundary strictly passed, computed path differing) or the size branch
firing (boundary not passed, positive byte threshold reached) — the write
returns that error with zero bytes and no count advance, the previously
open handle has been closed by that point, but the field retains that
closed handle instead of becoming nil; the boundary is not advanced, so
the triggering condition persists and the next write retries the open —
concretely, after the failed write of `envE1` on `rwE`, the next write
reopens the day's file and appends. -/
theorem rotation_failure_keeps_closed_handle (env : Env) (rw : RotateWriter) (plen : Nat)
    (htrig : (goAfter env.now rw.lastRotateTime = true
        ∧ Option.map FileHandle.name rw.file ≠ some (getCurrentFilePath env.now rw))
      ∨ (goAfter env.now rw.lastRotateTime = false
        ∧ rw.config.maxSize * 1024 * 1024 > 0
        ∧ rw.currentSize ≥ rw.config.maxSize * 1024 * 1024))
    (hfail : env.mkdirOk = false ∨ env.openOk = false) :
    ((Write env rw plen).1.1 = 0
      ∧ (Write env rw plen).1.2 ≠ none
      ∧ (Write env rw plen).2.currentSize = rw.currentSize
      ∧ (Write env rw plen).2.file = Option.map (fun f => { f with isOpen := false }) rw.file
      ∧ (Write env rw plen).2.lastRotateTime = rw.lastRotateTime)
    ∧ Write envE2 (Write envE1 rwE 5).2 5
        = ((5, none),
           ⟨cfgDaily, some ⟨"app_2024-03-02.log", 42, true⟩, 5, ⟨2024, 3, 3, 0, 0, 0⟩,
            "app", ".log"⟩) := by
  refine ⟨?_, by decide⟩
  rcases htrig with ⟨ht, hne⟩ | ⟨ht, h1, h2⟩
  · cases hf : rw.file with
    | none =>
      rcases hfail with hfail | hfail
      · simp [Write, checkRotate, ht, hf, openNewFile, hfail]
      · cases hmk : env.mkdirOk <;>
          simp [Write, checkRotate, ht, hf, openNewFile, hmk, hfail]
    | some f =>
      have hnef : ¬ (f.name = getCurrentFilePath env.now rw) := by
        rw [hf] at hne; simpa using hne
      simp only [getCurrentFilePath] at hnef
      rcases hfail with hfail | hfail
      · simp [Write, checkRotate, ht, hf, openNewFile, hfail, getCurrentFilePath, hnef]
      · cases hmk : env.mkdirOk <;>
          simp [Write, checkRotate, ht, hf, openNewFile, hmk, hfail, getCurrentFilePath, hnef]
  · cases hf : rw.file with
    | none =>
      rcases hfail with hfail | hfail
      · simp [Write, checkRotate, ht, h1, h2, hf, openNewFile, hfail]
      · cases hmk : env.mkdirOk <;>
          simp [Write, checkRotate, ht, h1, h2, hf, openNewFile, hmk, hfail]
    | some f =>
      rcases hfail with hfail | hfail
      · simp [Write, checkRotate, ht, h1, h2, hf, openNewFile, hfail]
      · cases hmk : env.mkdirOk <;>
          simp [Write, checkRotate, ht, h1, h2, hf, openNewFile, hmk, hfail]

/-- C4, witness: the amended theorem applied at `envE1`, `rwE` (mkdir
failing one second past the boundary). -/
theorem rotation_failure_keeps_closed_handle_witness :
    (((Write envE1 rwE 5).1.1 = 0
      ∧ (Write envE1 rwE 5).1.2 ≠ none
      ∧ (Write envE1 rwE 5).2.currentSize = rwE.currentSize
      ∧ (Write envE1 rwE 5).2.file = Option.map (fun f => { f with isOpen := false }) rwE.file
      ∧ (Write envE1 rwE 5).2.lastRotateTime = rwE.lastRotateTime)
    ∧ Write envE2 (Write envE1 rwE 5).2 5
        = ((5, none),
           ⟨cfgDaily, some ⟨"app_2024-03-02.log", 42, true⟩, 5, ⟨2024, 3, 3, 0, 0, 0⟩,
            "app", ".log"⟩)) :=
  rotation_failure_keeps_closed_handle envE1 rwE 5 (Or.inl ⟨by decide, by decide⟩)
    (Or.inl (by decide))

/-- C5, counterexample: past the boundary with the computed path equal to
the open file's path, the boundary is NOT advanced — `checkRotate` returns
the state fully unchanged, while the claim requires `nextTimeBoundary` to
advance (here to 13:00). -/
theorem boundary_advance_counterexample :
    goAfter envF.now rwF.lastRotateTime = true
    ∧ Option.map FileHandle.name rwF.file = some (getCurrentFilePath envF.now rwF)
    ∧ checkRotate envF rwF = (none, rwF)
    ∧ rwF.lastRotateTime ≠ getRotationTimeBoundary envF.now rwF := by decide

/-- C5 (amended): when the boundary has passed but the path computed for
the current instant equals the open file's path, `checkRotate` performs no
state change whatsoever — no reopen AND no boundary advance — and returns
early, short-circuiting the size check for this write. -/
theorem boundary_passed_same_path_no_change (env : Env) (rw : RotateWriter)
    (ht : goAfter env.now rw.lastRotateTime = true)
    (hsame : Option.map FileHandle.name rw.file = some (getCurrentFilePath env.now rw)) :
    checkRotate env rw = (none, rw) := by
  cases hf : rw.file with
  | none => rw [hf] at hsame; simp at hsame
  | some f =>
    rw [hf] at hsame
    simp only [Option.map_some', Option.some.injEq] at hsame
    simp [checkRotate, ht, hf, hsame]

/-- C5, witness: the amended theorem applied at `envF`, `rwF`. -/
theorem boundary_passed_same_path_no_change_witness :
    checkRotate envF rwF = (none, rwF) :=
  boundary_passed_same_path_no_change envF rwF (by decide) (by decide)

/-- C6, counterexample: `Rotate` (forceRotate) opens a new file but leaves
`lastRotateTime` untouched, which therefore does not equal the start of the
next granularity unit for the instant of that open. -/
theorem boundary_recompute_counterexample :
    (Rotate envG rwG).1 = none
    ∧ (Rotate envG rwG).2.file = some ⟨"app_2024-03-01_12.log", 61, true⟩
    ∧ (Rotate envG rwG).2.lastRotateTime = rwG.lastRotateTime
    ∧ rwG.lastRotateTime ≠ getRotationTimeBoundary envG.now rwG := by decide

/-- C6 (amended): the boundary is recomputed only at construction and on a
successful time-triggered rotation; a size-triggered rotation (any
`checkRotate` run whose time check did not fire) and `Rotate` (forceRotate)
leave `lastRotateTime` unchanged even though they open a new file. -/
theorem boundary_recompute_points :
    (∀ env cfg rw, NewRotateWriter env cfg = .ok rw →
        rw.lastRotateTime = getRotationTimeBoundary env.now rw)
    ∧ (∀ env rw, (Rotate env rw).2.lastRotateTime = rw.lastRotateTime)
    ∧ (∀ env rw, goAfter env.now rw.lastRotateTime = false →
        (checkRotate env rw).2.lastRotateTime = rw.lastRotateTime)
    ∧ (∀ env rw, goAfter env.now rw.lastRotateTime = true →
        Option.map FileHandle.name rw.file ≠ some (getCurrentFilePath env.now rw) →
        (checkRotate env rw).1 = none →
        (checkRotate env rw).2.lastRotateTime = getRotationTimeBoundary env.now rw) := by
  refine ⟨?_, ?_, ?_, ?_⟩
  · intro env cfg rw h
    simp only [NewRotateWriter] at h
    split at h
    · exact Except.noConfusion h
    · injection h with h
      subst h
      simp [getRotationTimeBoundary]
  · intro env rw
    exact openNewFile_lastRotateTime env rw
  · intro env rw h
    simp only [checkRotate, h, Bool.false_eq_true, if_false]
    split
    · exact openNewFile_lastRotateTime env rw
    · rfl
  · intro env rw ht hne herr
    have hcond : (match rw.file with
        | none => true
        | some f => f.name != getCurrentFilePath env.now rw) = true := by
      cases hf : rw.file with
      | none => rfl
      | some f =>
        rw [hf] at hne
        simpa [bne_iff_ne] using hne
    rw [checkRotate_time_branch env rw ht hcond] at herr ⊢
    rcases ho : openNewFile env rw with ⟨e, rw'⟩
    rw [ho] at herr
    cases e with
    | some e => exact Option.noConfusion herr
    | none =>
      have hc : rw'.config = rw.config := by
        have h2 := openNewFile_config env rw
        rw [ho] at h2
        exact h2
      show getRotationTimeBoundary env.now rw' = getRotationTimeBoundary env.now rw
      simp [getRotationTimeBoundary, hc]

/-- C7 (confirmed): the first `Close` clears the handle field whatever the
close result is (the reported error is surfaced exactly when a handle was
set), and a second `Close` returns success and changes nothing. -/
theorem close_idempotent (env env2 : Env) (rw : RotateWriter) :
    (Close env rw).2.file = none
    ∧ (rw.file ≠ none → (Close env rw).1 = env.closeErr)
    ∧ Close env2 (Close env rw).2 = (none, (Close env rw).2) := by
  obtain ⟨c, file, s, t, p, ex⟩ := rw
  cases file <;> simp [Close]

/-- C8, counterexample: when the underlying append reports 5 bytes written
together with an error, `currentSize` is NOT advanced at all — the claim
demands it advance by the 5 reported bytes. -/
theorem partial_write_counterexample :
    (Write envH rwH 10).1 = (5, some "io error")
    ∧ (Write envH rwH 10).2.currentSize = rwH.currentSize
    ∧ rwH.currentSize ≠ rwH.currentSize + 5 := by decide

/-- C8 (amended): relative to the post-rotation-check state, `currentSize`
advances by exactly the reported count when the write returns no error, and
by nothing at all when it returns an error — even if the error came with a
positive partial count. -/
theorem currentSize_advances_only_on_success (env : Env) (rw : RotateWriter) (plen : Nat) :
    (Write env rw plen).2.currentSize =
      (checkRotate env rw).2.currentSize +
        (if (Write env rw plen).1.2 = none then ((Write env rw plen).1.1 : Int) else 0) := by
  rcases hc : checkRotate env rw with ⟨e, rw'⟩
  cases e with
  | some e => simp [Write, hc]
  | none =>
    rcases hw : fileWrite env rw'.file with ⟨n, err⟩
    cases err <;> simp [Write, hc, hw]

/-- C10 (confirmed): `Close` is not terminal.  After a close, a write at an
instant strictly after the stored boundary — or one for which the retained
`currentSize` still meets a positive size threshold — reopens the file at
the path computed for the current instant and appends the bytes,
succeeding when the open and the append succeed. -/
theorem write_after_close_reopens (env env0 : Env) (rw : RotateWriter) (plen : Nat)
    (hm : env.mkdirOk = true) (ho : env.openOk = true)
    (happ : env.appendResult = (plen, none))
    (hcond : goAfter env.now rw.lastRotateTime = true
      ∨ (goAfter env.now rw.lastRotateTime = false
          ∧ rw.config.maxSize * 1024 * 1024 > 0
          ∧ rw.currentSize ≥ rw.config.maxSize * 1024 * 1024)) :
    (Write env (Close env0 rw).2 plen).1 = (plen, none)
    ∧ (Write env (Close env0 rw).2 plen).2.file
        = some ⟨getCurrentFilePath env.now rw, env.fd, true⟩
    ∧ (Write env (Close env0 rw).2 plen).2.currentSize
        = env.statSize.getD 0 + (plen : Int) := by
  obtain ⟨c, file, s, t, p, ex⟩ := rw
  have hcl : (Close env0 ⟨c, file, s, t, p, ex⟩).2 = ⟨c, none, s, t, p, ex⟩ := by
    cases file <;> simp [Close]
  rw [hcl]
  rcases hcond with ht | ⟨ht, h1, h2⟩ <;> cases hs : env.statSize <;>
    simp_all [Write, checkRotate, openNewFile, fileWrite, getCurrentFilePath]

/-- C10, witness: the theorem applied to `rwH` closed under `envI0` and
rewritten under `envI` (one second past its boundary). -/
theorem write_after_close_reopens_witness :
    (Write envI (Close envI0 rwH).2 5).1 = (5, none)
    ∧ (Write envI (Close envI0 rwH).2 5).2.file
        = some ⟨getCurrentFilePath envI.now rwH, envI.fd, true⟩
    ∧ (Write envI (Close envI0 rwH).2 5).2.currentSize
        = envI.statSize.getD 0 + (5 : Int) :=
  write_after_close_reopens envI envI0 rwH 5 (by decide) (by decide) (by decide)
    (Or.inl (by decide))
